import Mathlib

/-!
# Verification of the sled-mailbox radar crossing pipeline

Shallow embedding of the signal pipeline of the `focusedonsound/sled-mailbox`
repository (frame decoding, direction pairing, classification, counters,
baseline smoothing, trigger dispatch and the parameter-patch routes), together
with theorems settling the frozen specification claims.

Bytes are modelled as `ℕ` (each in `[0,255]` in the wire streams), Python
floats as `ℚ`, Python ints as `ℤ`, and Python `None`/missingness as `Option`.
-/

/- ================================================================
   §1  Simple-shape frame decoder
   (src/rd03e_reader.py, `loop_frames`, lines 114-137)

   The byte-at-a-time synchronization state machine:
     state 0: expect 0xAA            (else stay 0)
     state 1: expect 0xAA            (else back to 0)
     state 2: any byte -> cur_id
     state 3: any byte -> cur_val
     state 4: expect 0x00            (else back to 0)
     state 5: expect 0x55            (else back to 0)
     state 6: 0x55 -> emit frame; always back to 0
   ================================================================ -/

/-- Synchronization state of `loop_frames`: the `state` counter together with
the captured `cur_id` / `cur_val` bytes. -/
structure FrameSt where
  state : ℕ
  curId : ℕ
  curVal : ℕ
deriving DecidableEq, Repr

/-- One byte step of the `loop_frames` scanner; returns the new state and an
emitted `(id, val)` pair when a complete frame was recognized
(the `on_frame(cur_id, cur_val)` call in state 6). -/
def stepByte (s : FrameSt) (x : ℕ) : FrameSt × Option (ℕ × ℕ) :=
  match s.state with
  | 0 => ({ s with state := if x = 0xAA then 1 else 0 }, none)
  | 1 => ({ s with state := if x = 0xAA then 2 else 0 }, none)
  | 2 => ({ state := 3, curId := x, curVal := s.curVal }, none)
  | 3 => ({ state := 4, curId := s.curId, curVal := x }, none)
  | 4 => ({ s with state := if x = 0x00 then 5 else 0 }, none)
  | 5 => ({ s with state := if x = 0x55 then 6 else 0 }, none)
  | _ => ({ s with state := 0 }, if x = 0x55 then some (s.curId, s.curVal) else none)

/-- Run the scanner over a byte list, collecting all emitted frames in order. -/
def runBytes (s : FrameSt) : List ℕ → FrameSt × List (ℕ × ℕ)
  | [] => (s, [])
  | x :: rest =>
    let p := stepByte s x
    let q := runBytes p.1 rest
    (q.1, (match p.2 with | some e => [e] | none => []) ++ q.2)

/-- The `loop_frames` decoder applied to an entire byte stream, starting in the
idle state: the list of `(id, val)` pairs of all frames it recognizes. -/
def loop_frames (bs : List ℕ) : List (ℕ × ℕ) :=
  (runBytes ⟨0, 0, 0⟩ bs).2

/-- Wire encoding of one simple-shape frame: `AA AA <id> <val> 00 55 55`. -/
def frameBytes (id val : ℕ) : List ℕ :=
  [0xAA, 0xAA, id, val, 0x00, 0x55, 0x55]

/-- Garbage that contains no `0xAA` byte (so it can never look like a frame
start to the scanner). -/
def aaFree (g : List ℕ) : Prop := ∀ x ∈ g, x ≠ 0xAA

instance (g : List ℕ) : Decidable (aaFree g) := by
  unfold aaFree; infer_instance

/-- A byte stream consisting of frames, each preceded by a garbage run, with a
final trailing garbage run: chunks `(gᵢ, idᵢ, valᵢ)` give
`g₁ F₁ g₂ F₂ … g_N F_N tail`. -/
def frameStream : List (List ℕ × ℕ × ℕ) → List ℕ → List ℕ
  | [], tail => tail
  | (g, i, v) :: rest, tail => g ++ frameBytes i v ++ frameStream rest tail

lemma runBytes_append (s : FrameSt) (l1 l2 : List ℕ) :
    runBytes s (l1 ++ l2) =
      ((runBytes (runBytes s l1).1 l2).1,
        (runBytes s l1).2 ++ (runBytes (runBytes s l1).1 l2).2) := by
  induction l1 generalizing s with
  | nil => simp [runBytes]
  | cons x rest ih => simp [runBytes, ih]

lemma stepByte_idle_of_ne (i v x : ℕ) (hx : x ≠ 0xAA) :
    stepByte ⟨0, i, v⟩ x = (⟨0, i, v⟩, none) := by
  simp [stepByte, hx]

lemma runBytes_aaFree (i v : ℕ) (g : List ℕ) (hg : aaFree g) :
    runBytes ⟨0, i, v⟩ g = (⟨0, i, v⟩, []) := by
  induction g with
  | nil => simp [runBytes]
  | cons x rest ih =>
    have hx : x ≠ 0xAA := hg x (List.mem_cons_self x rest)
    have hrest : aaFree rest := fun y hy => hg y (List.mem_cons_of_mem x hy)
    simp [runBytes, stepByte_idle_of_ne i v x hx, ih hrest]

lemma runBytes_frame (i v id val : ℕ) :
    runBytes ⟨0, i, v⟩ (frameBytes id val) = (⟨0, id, val⟩, [(id, val)]) := by
  simp [frameBytes, runBytes, stepByte]

lemma runBytes_frameStream (i v : ℕ) (chunks : List (List ℕ × ℕ × ℕ))
    (tail : List ℕ) (hg : ∀ c ∈ chunks, aaFree c.1) (ht : aaFree tail) :
    ∃ i' v', runBytes ⟨0, i, v⟩ (frameStream chunks tail) =
      (⟨0, i', v'⟩, chunks.map fun c => (c.2.1, c.2.2)) := by
  induction chunks generalizing i v with
  | nil =>
    exact ⟨i, v, by simp [frameStream, runBytes_aaFree i v tail ht]⟩
  | cons c rest ih =>
    obtain ⟨g, ci, cv⟩ := c
    have hgc : aaFree g := hg _ (List.mem_cons_self _ _)
    have hrest : ∀ c ∈ rest, aaFree c.1 := fun c hc => hg c (List.mem_cons_of_mem _ hc)
    obtain ⟨i', v', hrun⟩ := ih ci cv hrest
    refine ⟨i', v', ?_⟩
    simp [frameStream, runBytes_append, runBytes_aaFree i v g hgc,
      runBytes_frame, hrun]

/-- C1 (counterexample). The claim asserts that a stray `AA` byte arriving in
the expected `00` slot is re-examined as a potential new frame start.  In the
code (state 4 of `loop_frames`) any byte other than `0x00` — including `0xAA` —
is consumed and the scan resets to the idle state.  Hence the stream consisting
of the truncated garbage prefix `AA AA 02 07` immediately followed by the valid
frame `AA AA 02 09 00 55 55` decodes to no frame at all, although one valid
frame (id 2, val 9) is present: the claim demands exactly one decoded sample
`(2, 9)`. -/
theorem C1_counterexample :
    loop_frames ([0xAA, 0xAA, 2, 7] ++ frameBytes 2 9) = [] ∧
      loop_frames ([0xAA, 0xAA, 2, 7] ++ frameBytes 2 9) ≠ [(2, 9)] := by
  constructor
  · decide
  · decide

/-- C1 (amended). Feeding N valid simple-shape frames interleaved with
arbitrary garbage runs yields exactly N decoded samples with the correct
id/val pairs, provided no garbage byte equals `0xAA`; a garbage `0xAA` can make
the scanner consume the following frame's bytes (the stray `AA` in an expected
`00`/`55` slot resets the scan to idle and is dropped, not re-examined). -/
theorem C1_simple_decoder_garbage (chunks : List (List ℕ × ℕ × ℕ))
    (tail : List ℕ) (hg : ∀ c ∈ chunks, aaFree c.1) (ht : aaFree tail) :
    loop_frames (frameStream chunks tail) = chunks.map fun c => (c.2.1, c.2.2) := by
  obtain ⟨i', v', h⟩ := runBytes_frameStream 0 0 chunks tail hg ht
  simp [loop_frames, h]

/-- Witness for C1's amended theorem: two frames `(2,7)` and `(2,9)`
interleaved with `AA`-free garbage decode to exactly those two samples. -/
theorem C1_witness :
    loop_frames (frameStream [([1, 2, 3], 2, 7), ([0x55, 0x00], 2, 9)] [9]) =
      [(2, 7), (2, 9)] :=
  C1_simple_decoder_garbage [([1, 2, 3], 2, 7), ([0x55, 0x00], 2, 9)] [9]
    (by decide) (by decide)

/- ================================================================
   §2  Report-shape frame extraction
   (src/rd03e_scope.py, `extract_report_frames`, lines 261-277)
   ================================================================ -/

/-- `F4 F3 F2 F1`, the report-frame header (`HDR_RPT`). -/
def HDR_RPT : List ℕ := [0xF4, 0xF3, 0xF2, 0xF1]

/-- `F8 F7 F6 F5`, the report-frame footer (`FTR_RPT`). -/
def FTR_RPT : List ℕ := [0xF8, 0xF7, 0xF6, 0xF5]

/-- Python `bytes.find`: index of the first occurrence of `pat` as a
contiguous sublist, `none` when absent (Python returns `-1`). -/
def findSub (pat : List ℕ) : List ℕ → Option ℕ
  | [] => none
  | x :: rest =>
    if (x :: rest).take pat.length = pat then some 0
    else (findSub pat rest).map (· + 1)

/-- Python `buf.find(pat, 4)`: first occurrence at index ≥ 4. -/
def findSubFrom4 (pat buf : List ℕ) : Option ℕ :=
  (findSub pat (buf.drop 4)).map (· + 4)

/-- The body of `extract_report_frames`'s `while True` loop, with the mutated
`bytearray` passed and returned explicitly.  The fuel argument only bounds the
number of iterations; each iteration that loops again consumes at least 8
bytes, so `buf.length + 1` fuel (supplied by `extract_report_frames`) is never
exhausted. -/
def extractAux : ℕ → List ℕ → List (List ℕ) → List (List ℕ) × List ℕ
  | 0, buf, acc => (acc, buf)
  | fuel + 1, buf, acc =>
    match findSub HDR_RPT buf with
    | none =>
      -- `if len(buf) > 4096: del buf[:-64]` then break
      (acc, if buf.length > 4096 then buf.drop (buf.length - 64) else buf)
    | some start =>
      -- `if start > 0: del buf[:start]` (drop = identity when start = 0)
      let buf1 := buf.drop start
      match findSubFrom4 FTR_RPT buf1 with
      | none => (acc, buf1)          -- header but no footer: keep bytes, break
      | some e =>
        let e2 := e + FTR_RPT.length
        extractAux fuel (buf1.drop e2) (acc ++ [buf1.take e2])

/-- `extract_report_frames(buf)`: returns the extracted frames and the
residual buffer contents. -/
def extract_report_frames (buf : List ℕ) : List (List ℕ) × List ℕ :=
  extractAux (buf.length + 1) buf []

lemma findSub_ne_nil {pat buf : List ℕ} {s : ℕ} (h : findSub pat buf = some s) :
    buf ≠ [] := by
  intro hb; subst hb; simp [findSub] at h

/-- C7. If the buffer contains a report header and no footer occurs at or
after offset 4 of the header's position, extraction returns zero frames and
the residual buffer is exactly the suffix starting at the header (the header
and every byte after it are preserved for the next read). -/
theorem C7_header_without_footer (buf : List ℕ) (s : ℕ)
    (hhdr : findSub HDR_RPT buf = some s)
    (hftr : findSubFrom4 FTR_RPT (buf.drop s) = none) :
    extract_report_frames buf = ([], buf.drop s) := by
  obtain ⟨x, rest, hb⟩ : ∃ x rest, buf = x :: rest := by
    cases buf with
    | nil => exact absurd rfl (findSub_ne_nil hhdr)
    | cons x rest => exact ⟨x, rest, rfl⟩
  subst hb
  show extractAux ((x :: rest).length + 1) (x :: rest) [] = _
  rw [List.length_cons]
  simp only [extractAux, hhdr, hftr]

/-- Witness for C7: a buffer holding two noise bytes, then a header and two
payload bytes but no footer, yields zero frames and keeps the header and the
bytes after it. -/
theorem C7_witness :
    extract_report_frames ([0x01, 0x02] ++ HDR_RPT ++ [0xAA, 0x03]) =
      ([], HDR_RPT ++ [0xAA, 0x03]) := by
  have h := C7_header_without_footer ([0x01, 0x02] ++ HDR_RPT ++ [0xAA, 0x03]) 2
    (by decide) (by decide)
  simpa using h

/- ================================================================
   §3  Direction pairing with guards
   (src/rd03e_two_sensor_counter.py, `BurstEvent` and the pairing
   loop in `main`, lines 281-355)
   ================================================================ -/

/-- Python `abs` on floats, modelled on `ℚ`. -/
def fabs (q : ℚ) : ℚ := if q < 0 then -q else q

/-- Direction of a counted crossing. -/
inductive Dir where
  | A2B
  | B2A
deriving DecidableEq, Repr

/-- The `BurstEvent` dataclass emitted by `BurstDetector`. -/
structure BurstEvent where
  sensor : String
  start_t : ℚ
  peak_t : ℚ
  peak_amp : ℚ
  peak_val : ℕ
  peak_sign : ℤ
  end_t : ℚ
deriving DecidableEq, Repr

/-- The pairing-relevant command-line arguments of
`rd03e_two_sensor_counter.main`. -/
structure PairCfg where
  pair : ℚ            -- `--pair`: max A↔B time for one crossing
  min_dt : ℚ          -- `--min-dt`: ambiguity guard
  amp_ratio : ℚ       -- `--amp-ratio`: amplitude guard margin
  refract : ℚ         -- `--refract`: cooldown after a counted crossing
  pair_mode_start : Bool  -- `--pair-mode start` (true) or `peak` (false)
deriving DecidableEq, Repr

/-- The timestamp used for pairing: `start_t` in `--pair-mode start`,
`peak_t` in `--pair-mode peak`. -/
def pairTime (mode_start : Bool) (e : BurstEvent) : ℚ :=
  if mode_start then e.start_t else e.peak_t

/-- The amplitude guard: the lead (earlier) channel's burst peak must be at
least `amp_ratio` times the lag channel's burst peak. -/
def ampOk (cfg : PairCfg) (a b : BurstEvent) : Prop :=
  if pairTime cfg.pair_mode_start a < pairTime cfg.pair_mode_start b then
    a.peak_amp ≥ cfg.amp_ratio * b.peak_amp
  else
    b.peak_amp ≥ cfg.amp_ratio * a.peak_amp

instance (cfg : PairCfg) (a b : BurstEvent) : Decidable (ampOk cfg a b) := by
  unfold ampOk; infer_instance

/-- Decision taken by one iteration of the pairing loop for head events
`a` (from queue A) and `b` (from queue B). -/
inductive StepRes where
  | dropA
  | dropB
  | dropBoth
  | accept (d : Dir) (t_cross : ℚ)
deriving DecidableEq, Repr

/-- One iteration of the `while qA and qB` pairing loop, for head events `a`
and `b` and the current `last_cross_t`, mirroring the guard order of the
source: pair window, `min_dt` ambiguity, amplitude ratio, refractory. -/
def pairDecide (cfg : PairCfg) (a b : BurstEvent) (last_cross_t : ℚ) : StepRes :=
  let tA := pairTime cfg.pair_mode_start a
  let tB := pairTime cfg.pair_mode_start b
  let dt_ab := fabs (tA - tB)
  if dt_ab > cfg.pair then
    -- beyond pairing window: drop the older event
    (if tA < tB then .dropA else .dropB)
  else if dt_ab < cfg.min_dt then
    .dropBoth                       -- ambiguous: too close in time
  else if ¬ ampOk cfg a b then
    .dropBoth                       -- amplitude margin not met
  else
    let t_cross := max a.peak_t b.peak_t
    if t_cross - last_cross_t < cfg.refract then
      -- refractory: too soon after a counted cross; drop the older one
      (if a.peak_t < b.peak_t then .dropA else .dropB)
    else
      (if tA < tB then .accept .A2B t_cross else .accept .B2A t_cross)

/-- Final state of the pairing loop: residual queues, direction totals
(`inbound` counts `A->B`, `outbound` counts `B->A`), the crossings counted in
order, and `last_cross_t`. -/
structure PairOut where
  qA : List BurstEvent
  qB : List BurstEvent
  inbound : ℕ
  outbound : ℕ
  events : List Dir
  last_cross_t : ℚ
deriving DecidableEq, Repr

/-- The `while qA and qB` pairing loop of `main`: repeatedly decide on the two
head events until one queue is exhausted. -/
def pairLoop (cfg : PairCfg) :
    List BurstEvent → List BurstEvent → ℚ → ℕ → ℕ → List Dir → PairOut
  | [], qB, lc, inb, outb, evs => ⟨[], qB, inb, outb, evs, lc⟩
  | a :: rA, [], lc, inb, outb, evs => ⟨a :: rA, [], inb, outb, evs, lc⟩
  | a :: rA, b :: rB, lc, inb, outb, evs =>
    match pairDecide cfg a b lc with
    | .dropA => pairLoop cfg rA (b :: rB) lc inb outb evs
    | .dropB => pairLoop cfg (a :: rA) rB lc inb outb evs
    | .dropBoth => pairLoop cfg rA rB lc inb outb evs
    | .accept d t =>
      pairLoop cfg rA rB t
        (match d with | .A2B => inb + 1 | .B2A => inb)
        (match d with | .A2B => outb | .B2A => outb + 1)
        (evs ++ [d])
termination_by qA qB _ _ _ _ => qA.length + qB.length
decreasing_by all_goals (simp [List.length_cons]; try omega)

/-- Pairing configuration of the C2 example: `pair_window=0.8`, `min_dt=0.1`,
`amp_ratio=1.0`, `refract=1.0`, start-mode pairing. -/
def pairCfgC2 : PairCfg := ⟨4/5, 1/10, 1, 1, true⟩

/-- Burst edge from sensor A at `t = 0`. -/
def edgeA0 : BurstEvent := ⟨"A", 0, 0, 5, 40, 1, 1/5⟩

/-- Burst edge from sensor B at `t = 0.5`. -/
def edgeB05 : BurstEvent := ⟨"B", 1/2, 1/2, 5, 40, 1, 7/10⟩

/-- Burst edge from sensor B at `t = 0.05` (closer than `min_dt = 0.1`). -/
def edgeB005 : BurstEvent := ⟨"B", 1/20, 1/20, 5, 40, 1, 1/4⟩

/-- C2. (i) For every pair of pending edges, one per channel, within the
pairing window but separated by less than `min_dt`, the pairing loop discards
both as ambiguous: no event, no count, `last_cross_t` untouched.  (ii) With
`pair_window=0.8`, `min_dt=0.1`, `amp_ratio=1.0` and the amplitude guard
satisfied, the edges A at `t=0` and B at `t=0.5` produce exactly one `A→B`
crossing (the last counted crossing is set to `-1`, i.e. long ago, so the
refractory guard does not interfere). -/
theorem C2_min_dt_guard (cfg : PairCfg) (a b : BurstEvent) (lc : ℚ)
    (inb outb : ℕ) (evs : List Dir)
    (h1 : fabs (pairTime cfg.pair_mode_start a - pairTime cfg.pair_mode_start b) ≤ cfg.pair)
    (h2 : fabs (pairTime cfg.pair_mode_start a - pairTime cfg.pair_mode_start b) < cfg.min_dt) :
    pairLoop cfg [a] [b] lc inb outb evs = ⟨[], [], inb, outb, evs, lc⟩ ∧
      pairLoop pairCfgC2 [edgeA0] [edgeB05] (-1) 0 0 [] =
        ⟨[], [], 1, 0, [.A2B], 1/2⟩ := by
  constructor
  · have hd : pairDecide cfg a b lc = .dropBoth := by
      simp only [pairDecide]
      rw [if_neg (not_lt.mpr h1), if_pos h2]
    simp only [pairLoop, hd]
  · norm_num [pairLoop, pairDecide, pairTime, ampOk, fabs, pairCfgC2, edgeA0, edgeB05]

/-- Witness for C2: the ambiguous-discard path at a concrete input — edges at
`t=0` and `t=0.05` under `min_dt=0.1` produce zero events. -/
theorem C2_witness :
    pairLoop pairCfgC2 [edgeA0] [edgeB005] (-1) 0 0 [] = ⟨[], [], 0, 0, [], -1⟩ :=
  (C2_min_dt_guard pairCfgC2 edgeA0 edgeB005 (-1) 0 0 []
    (by norm_num [fabs, pairTime, pairCfgC2, edgeA0, edgeB005])
    (by norm_num [fabs, pairTime, pairCfgC2, edgeA0, edgeB005])).1

/-- C3. A candidate crossing formed from one pending edge per channel within
the pairing window (and not closer than `min_dt`) whose lead peak amplitude is
below `amp_ratio` times the lag peak amplitude is discarded whole: both edges
are dropped, no event is emitted, no counter moves.  (Together with the accept
branch of `pairDecide`, which requires `ampOk`, an event is emitted only when
the amplitude guard holds.) -/
theorem C3_amp_guard (cfg : PairCfg) (a b : BurstEvent) (lc : ℚ)
    (inb outb : ℕ) (evs : List Dir)
    (h1 : fabs (pairTime cfg.pair_mode_start a - pairTime cfg.pair_mode_start b) ≤ cfg.pair)
    (h2 : cfg.min_dt ≤ fabs (pairTime cfg.pair_mode_start a - pairTime cfg.pair_mode_start b))
    (hamp : ¬ ampOk cfg a b) :
    pairLoop cfg [a] [b] lc inb outb evs = ⟨[], [], inb, outb, evs, lc⟩ := by
  have hd : pairDecide cfg a b lc = .dropBoth := by
    simp only [pairDecide]
    rw [if_neg (not_lt.mpr h1), if_neg (not_lt.mpr h2), if_pos hamp]
  simp only [pairLoop, hd]

/-- Pairing configuration with the source's default guards: `pair=0.90`,
`min_dt=0.12`, `amp_ratio=1.20`, `refract=1.00`, start-mode pairing. -/
def pairCfgDflt : PairCfg := ⟨9/10, 12/100, 12/10, 1, true⟩

/-- First qualifying A-burst, at `t = 10` with peak amplitude 12. -/
def burstA1 : BurstEvent := ⟨"A", 10, 10, 12, 80, 1, 102/10⟩

/-- First qualifying B-burst, at `t = 10.3` with peak amplitude 5. -/
def burstB1 : BurstEvent := ⟨"B", 103/10, 103/10, 5, 60, 1, 104/10⟩

/-- Second qualifying A-burst, at `t = 10.2`. -/
def burstA2 : BurstEvent := ⟨"A", 51/5, 51/5, 12, 80, 1, 103/10⟩

/-- Second qualifying B-burst, at `t = 10.5` (crossing 0.2 s after the first). -/
def burstB2 : BurstEvent := ⟨"B", 21/2, 21/2, 5, 60, 1, 106/10⟩

/-- A-burst whose peak amplitude 5 fails the `amp_ratio=1.2` guard against
`burstB1` (needs ≥ 6). -/
def burstA_weak : BurstEvent := ⟨"A", 10, 10, 5, 60, 1, 102/10⟩

/-- Witness for C3: a candidate crossing failing the amplitude guard at a
concrete input is discarded with no event. -/
theorem C3_witness :
    pairLoop pairCfgDflt [burstA_weak] [burstB1] 0 0 0 [] = ⟨[], [], 0, 0, [], 0⟩ :=
  C3_amp_guard pairCfgDflt burstA_weak burstB1 0 0 0 []
    (by norm_num [fabs, pairTime, pairCfgDflt, burstA_weak, burstB1])
    (by norm_num [fabs, pairTime, pairCfgDflt, burstA_weak, burstB1])
    (by norm_num [ampOk, pairTime, pairCfgDflt, burstA_weak, burstB1])

/-- C5. (i) A candidate crossing passing the window, `min_dt` and amplitude
guards but arriving while `t_cross - last_cross_t < refract` is not accepted:
the older pending edge is dropped, the newer stays pending, and no counter or
event changes.  (ii) Concretely, two qualifying `A→B` pairs with crossing
times 0.2 s apart under `refract = 1.0` yield exactly one counted `A→B`
crossing; the second pair increments nothing and its newer edge stays queued. -/
theorem C5_refractory_guard (cfg : PairCfg) (a b : BurstEvent) (lc : ℚ)
    (inb outb : ℕ) (evs : List Dir)
    (h1 : fabs (pairTime cfg.pair_mode_start a - pairTime cfg.pair_mode_start b) ≤ cfg.pair)
    (h2 : cfg.min_dt ≤ fabs (pairTime cfg.pair_mode_start a - pairTime cfg.pair_mode_start b))
    (hamp : ampOk cfg a b)
    (href : max a.peak_t b.peak_t - lc < cfg.refract)
    (holder : a.peak_t < b.peak_t) :
    pairLoop cfg [a] [b] lc inb outb evs = ⟨[], [b], inb, outb, evs, lc⟩ ∧
      pairLoop pairCfgDflt [burstA1, burstA2] [burstB1, burstB2] 0 0 0 [] =
        ⟨[], [burstB2], 1, 0, [.A2B], 103/10⟩ := by
  constructor
  · have hd : pairDecide cfg a b lc = .dropA := by
      simp only [pairDecide]
      rw [if_neg (not_lt.mpr h1), if_neg (not_lt.mpr h2), if_neg (not_not_intro hamp),
        if_pos href, if_pos holder]
    simp only [pairLoop, hd]
  · norm_num [pairLoop, pairDecide, pairTime, ampOk, fabs, pairCfgDflt,
      burstA1, burstA2, burstB1, burstB2]

/-- Witness for C5: the refractory drop at a concrete input — the second
qualifying pair 0.2 s after a counted crossing drops its older edge and counts
nothing. -/
theorem C5_witness :
    pairLoop pairCfgDflt [burstA2] [burstB2] (103/10) 1 0 [.A2B] =
      ⟨[], [burstB2], 1, 0, [.A2B], 103/10⟩ :=
  (C5_refractory_guard pairCfgDflt burstA2 burstB2 (103/10) 1 0 [.A2B]
    (by norm_num [fabs, pairTime, pairCfgDflt, burstA2, burstB2])
    (by norm_num [fabs, pairTime, pairCfgDflt, burstA2, burstB2])
    (by norm_num [ampOk, pairTime, pairCfgDflt, burstA2, burstB2])
    (by norm_num [pairCfgDflt, burstA2, burstB2])
    (by norm_num [burstA2, burstB2])).1

/- ================================================================
   §4  Classifier
   (src/rd03e_scope.py, classification block of
   `SerialReader._emit_dir_edge`, lines 465-518)
   ================================================================ -/

/-- Python truthiness of an optional float (`if ra and rb:` treats both `None`
and `0.0` as false). -/
def truthy : Option ℚ → Prop
  | none => False
  | some x => x ≠ 0

instance (o : Option ℚ) : Decidable (truthy o) := by
  cases o <;> simp [truthy] <;> infer_instance

/-- Classifier parameters read from `STATE`: `sensor_gap_cm`,
`veh_speed_min_mps`, `veh_peak_me_min`, `veh_min_duration`, `holdA`, `holdB`. -/
structure ClassifyCfg where
  sensor_gap_cm : ℚ
  veh_speed_min_mps : ℚ
  veh_peak_me_min : ℚ
  veh_min_duration : ℚ
  holdA : ℚ
  holdB : ℚ
deriving DecidableEq, Repr

/-- The classification fields of the `last_event` record built by
`_emit_dir_edge` (direction and per-channel diagnostics omitted). -/
structure ClassifiedEvent where
  dt : Option ℚ
  speed_mps : Option ℚ
  duration_s : ℚ
  cls : String
deriving DecidableEq, Repr

/-- The classification block of `_emit_dir_edge`: from the two rise
timestamps `ra`, `rb` and the two lookback peak moving energies, compute
`dt = abs(rb - ra)`, `speed = (gap_cm/100)/dt` (only when `dt > 1e-3`),
`duration_s = max(holdA, holdB)`, and the `"car"`/`"other"` label. -/
def classifyEvent (cfg : ClassifyCfg) (ra rb peak_me_A peak_me_B : Option ℚ) :
    ClassifiedEvent :=
  let dt : Option ℚ :=
    if truthy ra ∧ truthy rb then some (fabs (rb.getD 0 - ra.getD 0)) else none
  let speed_mps : Option ℚ :=
    match dt with
    | some d => if d > 1/1000 then some ((cfg.sensor_gap_cm / 100) / d) else none
    | none => none
  let duration_s := max cfg.holdA cfg.holdB
  let peak_me_both := max (peak_me_A.getD 0) (peak_me_B.getD 0)
  let cls :=
    if speed_mps.getD 0 ≥ cfg.veh_speed_min_mps ∧ peak_me_both ≥ cfg.veh_peak_me_min ∧
        duration_s ≥ cfg.veh_min_duration
    then "car" else "other"
  ⟨dt, speed_mps, duration_s, cls⟩

/-- The `"car"`/`"other"` choice equals `"car"` exactly when its condition
holds. -/
lemma ite_eq_car_iff (c : Prop) [Decidable c] :
    ((if c then "car" else "other") = "car") ↔ c := by
  split
  · rename_i h
    exact iff_of_true rfl h
  · rename_i h
    exact iff_of_false (by decide) h

/-- Classifier configuration of the C6 example: `sensor_gap = 0.56 m`
(56 cm), `min_speed = 0.8 m/s`, `min_peak_energy = 40`,
`min_duration = 0.1 s`, `holdA = holdB = 0.3 s`. -/
def clsCfgC6 : ClassifyCfg := ⟨56, 4/5, 40, 1/10, 3/10, 3/10⟩

/-- C6. For rise timestamps present on both channels: (i) `dt = |rb - ra|`;
(ii) when `dt > 1e-3` the speed is `sensor_gap / dt` (gap converted cm → m);
(iii) the label is `"car"` (the spec's `"target"` class) exactly when
`speed ≥ min_speed` and the larger of the two peak moving energies is
`≥ min_peak_energy` and the duration `max(holdA, holdB) ≥ min_duration`;
(iv) with `gap = 0.56 m` and rises 0.4 s apart the speed is `1.4 m/s` and
sufficient peak energy (50) gives `"car"` while peak energy below 40 flips
the label to `"other"` with identical timing. -/
theorem C6_classifier (cfg : ClassifyCfg) (x y : ℚ) (pa pb : Option ℚ)
    (hx : x ≠ 0) (hy : y ≠ 0) :
    (classifyEvent cfg (some x) (some y) pa pb).dt = some (fabs (y - x)) ∧
    (fabs (y - x) > 1/1000 →
      (classifyEvent cfg (some x) (some y) pa pb).speed_mps =
        some ((cfg.sensor_gap_cm / 100) / fabs (y - x))) ∧
    ((classifyEvent cfg (some x) (some y) pa pb).cls = "car" ↔
      ((classifyEvent cfg (some x) (some y) pa pb).speed_mps.getD 0 ≥
          cfg.veh_speed_min_mps ∧
        max (pa.getD 0) (pb.getD 0) ≥ cfg.veh_peak_me_min ∧
        max cfg.holdA cfg.holdB ≥ cfg.veh_min_duration)) ∧
    (classifyEvent clsCfgC6 (some 100) (some (502/5)) (some 50) (some 45) =
        ⟨some (2/5), some (7/5), 3/10, "car"⟩ ∧
      classifyEvent clsCfgC6 (some 100) (some (502/5)) (some 30) (some 20) =
        ⟨some (2/5), some (7/5), 3/10, "other"⟩) := by
  refine ⟨?_, ?_, ?_, ?_, ?_⟩
  · simp [classifyEvent, truthy, hx, hy]
  · intro hdt
    have hdt' : (1000 : ℚ)⁻¹ < fabs (y - x) := by simpa [one_div] using hdt
    simp [classifyEvent, truthy, hx, hy, hdt']
  · have hx' : truthy (some x) := hx
    have hy' : truthy (some y) := hy
    simp only [classifyEvent, if_pos (And.intro hx' hy'), Option.getD_some]
    exact ite_eq_car_iff _
  · norm_num [classifyEvent, truthy, fabs, clsCfgC6]
  · norm_num [classifyEvent, truthy, fabs, clsCfgC6]

/-- Witness for C6: the concrete `0.56 m / 0.4 s` example evaluated through
the theorem — speed `1.4 m/s`, class `"car"`, and the low-energy variant
`"other"`. -/
theorem C6_witness :
    classifyEvent clsCfgC6 (some 100) (some (502/5)) (some 50) (some 45) =
        ⟨some (2/5), some (7/5), 3/10, "car"⟩ ∧
      classifyEvent clsCfgC6 (some 100) (some (502/5)) (some 30) (some 20) =
        ⟨some (2/5), some (7/5), 3/10, "other"⟩ := by
  have h := C6_classifier clsCfgC6 100 (502/5) (some 50) (some 45)
    (by norm_num) (by norm_num)
  exact h.2.2.2

/- ================================================================
   §5  Counters
   (src/rd03e_scope.py, the counter increments in `_emit_dir_edge`,
   lines 503-510, and `counts_reset`, lines 847-860)
   ================================================================ -/

/-- The four running counters of `STATE`. -/
structure Counts where
  count_A2B : ℕ
  count_B2A : ℕ
  count_total : ℕ
  count_other : ℕ
deriving DecidableEq, Repr

/-- Counter update performed for one accepted crossing: `evt` is the
direction string (`"A2B"` or anything else for `B→A`), `cls` the classifier
label (`"car"` or `"other"`). -/
def acceptUpdate (c : Counts) (evt cls : String) : Counts :=
  let c1 :=
    if evt = "A2B" then { c with count_A2B := c.count_A2B + 1 }
    else { c with count_B2A := c.count_B2A + 1 }
  if cls = "car" then { c1 with count_total := c1.count_total + 1 }
  else { c1 with count_other := c1.count_other + 1 }

/-- The initial counter values of `STATE`. -/
def countsInit : Counts := ⟨0, 0, 0, 0⟩

/-- The `/counts/reset` route: zeroes all four counters. -/
def counts_reset : Counts := ⟨0, 0, 0, 0⟩

/-- Counter states reachable from the initial state by accepted-crossing
updates and resets. -/
inductive CountsReach : Counts → Prop where
  | init : CountsReach countsInit
  | step (c : Counts) (evt cls : String) :
      CountsReach c → CountsReach (acceptUpdate c evt cls)
  | reset (c : Counts) : CountsReach c → CountsReach counts_reset

/-- C10. Every accepted crossing increments exactly one direction counter and
exactly one class counter, and a reset zeroes all four, so in every reachable
counter state `count_A2B + count_B2A = count_total + count_other`. -/
theorem C10_counter_invariant (c : Counts) (h : CountsReach c) :
    c.count_A2B + c.count_B2A = c.count_total + c.count_other := by
  induction h with
  | init => rfl
  | reset _ _ _ => rfl
  | step c evt cls _ ih =>
    by_cases he : evt = "A2B" <;> by_cases hc : cls = "car" <;>
      simp [acceptUpdate, he, hc] <;> omega

/-- Witness for C10: the invariant at the concrete reachable state obtained
by one accepted `A→B` crossing classified `"car"`. -/
theorem C10_witness :
    (acceptUpdate countsInit "A2B" "car").count_A2B +
        (acceptUpdate countsInit "A2B" "car").count_B2A =
      (acceptUpdate countsInit "A2B" "car").count_total +
        (acceptUpdate countsInit "A2B" "car").count_other :=
  C10_counter_invariant _ (CountsReach.step countsInit "A2B" "car" CountsReach.init)

/- ================================================================
   §6  Baseline smoothing of decoded reports
   (src/rd03e_scope.py, `SerialReader.run`, lines 695-721)
   ================================================================ -/

/-- Python `int(...)` on a float: truncation toward zero. -/
def pyTrunc (q : ℚ) : ℤ := if q ≥ 0 then ⌊q⌋ else ⌈q⌉

/-- A decoded `Ld2410Report` (`move_energy`, `move_dist_cm`, `still_energy`,
`still_dist_cm`). -/
structure LdReport where
  move_energy : ℤ
  move_dist_cm : Option ℤ
  still_energy : ℤ
  still_dist_cm : Option ℤ
deriving DecidableEq, Repr

/-- The smoothed per-channel record `STATE["a_ld_s"]` / `STATE["b_ld_s"]`. -/
structure LdSmooth where
  move_energy : ℚ
  move_dist : Option ℤ
  still_energy : ℚ
  still_dist : Option ℤ
deriving DecidableEq, Repr

/-- The EMA update block of `SerialReader.run`: the move fields are smoothed
only when `move_energy ≥ min_energy` and a move distance is present, and
likewise for the still fields; otherwise the previous smoothed values are
kept. -/
def smooth_update (alpha : ℚ) (min_e : ℤ) (cur : LdSmooth) (rep : LdReport) :
    LdSmooth :=
  let cur1 :=
    match rep.move_dist_cm with
    | some d =>
      if min_e ≤ rep.move_energy then
        { cur with
          move_energy := (1 - alpha) * cur.move_energy + alpha * (rep.move_energy : ℚ),
          move_dist :=
            some (pyTrunc ((1 - alpha) * ((cur.move_dist.getD d : ℤ) : ℚ) + alpha * (d : ℚ))) }
      else cur
    | none => cur
  match rep.still_dist_cm with
  | some d =>
    if min_e ≤ rep.still_energy then
      { cur1 with
        still_energy := (1 - alpha) * cur1.still_energy + alpha * (rep.still_energy : ℚ),
        still_dist :=
          some (pyTrunc ((1 - alpha) * ((cur1.still_dist.getD d : ℤ) : ℚ) + alpha * (d : ℚ))) }
    else cur1
  | none => cur1

/-- Per-report handling in `SerialReader.run`: the raw report is stored in
`STATE` unconditionally, the smoothed record is updated, and the (possibly
unchanged) smoothed move energy is handed to `_update_trigger`. -/
def handle_report (alpha : ℚ) (min_e : ℤ) (cur : LdSmooth) (rep : LdReport) :
    LdReport × LdSmooth × ℚ :=
  let s := smooth_update alpha min_e cur rep
  (rep, s, s.move_energy)

/-- C9. A decoded report whose move energy is below the `min_energy` floor
leaves the smoothed move-distance EMA (and the move-energy EMA) unchanged,
while the raw sample is still stored and delivered downstream unmodified. -/
theorem C9_low_energy_skips_ema (alpha : ℚ) (min_e : ℤ) (cur : LdSmooth)
    (rep : LdReport) (hlow : rep.move_energy < min_e) :
    (handle_report alpha min_e cur rep).1 = rep ∧
    (handle_report alpha min_e cur rep).2.1.move_dist = cur.move_dist ∧
    (handle_report alpha min_e cur rep).2.1.move_energy = cur.move_energy := by
  have h1 : ¬ min_e ≤ rep.move_energy := not_le.mpr hlow
  refine ⟨rfl, ?_, ?_⟩ <;>
    (cases hmd : rep.move_dist_cm <;> cases hsd : rep.still_dist_cm <;>
      simp [handle_report, smooth_update, hmd, hsd, h1] <;> split <;> rfl)

/-- Witness for C9: a concrete report with move energy 3 below the floor 5
keeps the smoothed move fields and is delivered as-is. -/
theorem C9_witness :
    (handle_report (15/100) 5 ⟨10, some 100, 20, some 200⟩
        ⟨3, some 50, 30, some 150⟩).1 = ⟨3, some 50, 30, some 150⟩ ∧
    (handle_report (15/100) 5 ⟨10, some 100, 20, some 200⟩
        ⟨3, some 50, 30, some 150⟩).2.1.move_dist = (⟨10, some 100, 20, some 200⟩ : LdSmooth).move_dist ∧
    (handle_report (15/100) 5 ⟨10, some 100, 20, some 200⟩
        ⟨3, some 50, 30, some 150⟩).2.1.move_energy = (⟨10, some 100, 20, some 200⟩ : LdSmooth).move_energy :=
  C9_low_energy_skips_ema (15/100) 5 ⟨10, some 100, 20, some 200⟩
    ⟨3, some 50, 30, some 150⟩ (by decide)

/- ================================================================
   §7  Trigger state machine
   (src/rd03e_scope.py, `SerialReader._update_trigger`, lines 539-651,
   with `_update_me_stats`, lines 424-429)
   ================================================================ -/

/-- Per-channel mutable trigger state (`ReaderState` fields used by
`_update_trigger`). -/
structure TrigState where
  trig_on : Bool
  last_valid_ts : ℚ
  me_mean : ℚ
  me_m2 : ℚ
  me_n : ℕ
  last_me : ℚ
  dist_ring : List ℤ
deriving DecidableEq, Repr

/-- The `STATE` entries read by `_update_trigger` for one channel.
`trig_mode` and `trig_source` are the already-lowercased strings; the
`*_still` fields are the optional still-energy overrides that fall back to
the moving thresholds when `None`. -/
structure TrigCfg where
  trig_mode : String
  trig_source : String
  min_energy : ℚ
  mov_trig : ℚ
  mov_hys : ℚ
  mov_hold : ℚ
  trig_still : Option ℚ
  hys_still : Option ℚ
  hold_still : Option ℚ
  presence_se_min : ℚ
  sigma_floor : ℚ
  dz_min : ℚ
  k_sigma : ℚ
  wave_cm : ℚ
deriving DecidableEq, Repr

/-- `_update_me_stats`: one Welford step on the quiet-sample statistics,
returning `(mean, m2, n)`. -/
def update_me_stats (mean m2 : ℚ) (n : ℕ) (me : ℚ) : ℚ × ℚ × ℕ :=
  let n1 := n + 1
  let d := me - mean
  let mean1 := mean + d / (n1 : ℚ)
  (mean1, m2 + d * (me - mean1), n1)

/-- `deque(maxlen=48).append`: append and keep the most recent 48 entries. -/
def ringAppend (r : List ℤ) (x : ℤ) : List ℤ :=
  let r1 := r ++ [x]
  r1.drop (r1.length - 48)

/-- The `moving_logic` closure of `_update_trigger`: level mode is a Schmitt
trigger with a hold-time dwell on release; spike mode uses z-score/wave
confirmation when presence is detected, and level-or-spike otherwise. -/
def moving_logic (mode : String) (presence : Bool)
    (me_s min_e mov_trig mov_hys mov_hold : ℚ) (z_ok wave_ok : Bool)
    (now last_valid_ts : ℚ) (prev_on : Bool) : Bool :=
  if mode = "level" then
    let on_lv : Bool := if me_s ≥ mov_trig then true else false
    let off_lv : Bool :=
      if me_s < max 0 (mov_trig - mov_hys) ∧ now - last_valid_ts > mov_hold
      then true else false
    (prev_on && !off_lv) || (!prev_on && on_lv)
  else
    if presence then
      let want_on : Bool :=
        (z_ok || wave_ok) && (if me_s ≥ min_e then true else false)
      let want_off : Bool :=
        (!z_ok && !wave_ok) &&
          (if now - last_valid_ts > mov_hold then true else false)
      (prev_on && !want_off) || (!prev_on && want_on)
    else
      let want_on : Bool :=
        (if me_s ≥ mov_trig then true else false) ||
          (z_ok && (if me_s ≥ min_e then true else false))
      let want_off : Bool :=
        if me_s < max 0 (mov_trig - mov_hys) ∧ now - last_valid_ts > mov_hold
        then true else false
      (prev_on && !want_off) || (!prev_on && want_on)

/-- The `still_logic` closure of `_update_trigger`: a Schmitt trigger on the
smoothed still energy with its own thresholds and hold time. -/
def still_logic (se_s st_trig st_hys st_hold now last_valid_ts : ℚ)
    (prev_on : Bool) : Bool :=
  let on_lv : Bool := if se_s ≥ st_trig then true else false
  let off_lv : Bool :=
    if se_s < max 0 (st_trig - st_hys) ∧ now - last_valid_ts > st_hold
    then true else false
  (prev_on && !off_lv) || (!prev_on && on_lv)

/-- Result of one `_update_trigger` call: the updated state, whether
`_emit_dir_edge` was called (`emit`), and the values of the local booleans
`m_on` and `s_on`. -/
structure TrigResult where
  st : TrigState
  emit : Bool
  m_on : Bool
  s_on : Bool
deriving DecidableEq, Repr

/-- `_update_trigger(me_s)` for one sample.  `sqrtVar` stands for the float
`math.sqrt` of the learned variance `m2/(n-1)`, which has no exact rational
value; it is passed as an input and only used on the branch where the source
computes the square root (`n > 2` and variance `> 1e-9`).  The borrow-lock
early return (a concurrency pause) is not modelled. -/
def update_trigger (cfg : TrigCfg) (st : TrigState) (now me_s se_s : ℚ)
    (md_s : Option ℤ) (sqrtVar : ℚ) : TrigResult :=
  let ring := match md_s with
    | some d => ringAppend st.dist_ring d
    | none => st.dist_ring
  let stats :=
    if me_s < max cfg.min_energy 10 then
      update_me_stats st.me_mean st.me_m2 st.me_n me_s
    else (st.me_mean, st.me_m2, st.me_n)
  let mean := stats.1
  let m2 := stats.2.1
  let n := stats.2.2
  let st_trig := cfg.trig_still.getD cfg.mov_trig
  let st_hys := cfg.hys_still.getD cfg.mov_hys
  let st_hold := cfg.hold_still.getD cfg.mov_hold
  let prev := st.trig_on
  let presence : Bool := if se_s ≥ cfg.presence_se_min then true else false
  let sd : ℚ :=
    if 2 < n then
      (if m2 / ((n : ℚ) - 1) > 1/1000000000 then sqrtVar else 0)
    else 0
  let sd_eff := max sd cfg.sigma_floor
  let step_ok : Bool := if me_s - st.last_me ≥ cfg.dz_min then true else false
  let z_ok : Bool :=
    (if me_s - mean ≥ cfg.k_sigma * sd_eff then true else false) && step_ok
  let wave_ok : Bool :=
    if 3 ≤ ring.length then
      (if ((ring.getD (ring.length - 1) 0 - ring.getD (ring.length - 3) 0).natAbs : ℚ) ≥ cfg.wave_cm
       then true else false)
    else false
  let active1 : Bool :=
    if cfg.trig_source = "moving" ∨ cfg.trig_source = "either" ∨ cfg.trig_source = "both" then
      (if cfg.trig_mode = "level" then
        (if me_s ≥ cfg.min_energy then true else false)
      else if presence then
        (z_ok || wave_ok) && (if me_s ≥ cfg.min_energy then true else false)
      else
        (if me_s ≥ cfg.mov_trig then true else false) ||
          (z_ok && (if me_s ≥ cfg.min_energy then true else false)))
    else false
  let active_sample : Bool :=
    active1 ||
      ((if cfg.trig_source = "still" ∨ cfg.trig_source = "either" ∨ cfg.trig_source = "both"
        then true else false) &&
        (if se_s ≥ max cfg.min_energy (st_trig * (1/5)) then true else false))
  let last_valid := if active_sample = true then now else st.last_valid_ts
  let m_on := moving_logic cfg.trig_mode presence me_s cfg.min_energy cfg.mov_trig
    cfg.mov_hys cfg.mov_hold z_ok wave_ok now last_valid prev
  let s_on := still_logic se_s st_trig st_hys st_hold now last_valid prev
  let new_on :=
    if cfg.trig_source = "moving" then m_on
    else if cfg.trig_source = "still" then s_on
    else if cfg.trig_source = "either" then m_on || s_on
    else m_on && s_on
  let emit := !prev && new_on && m_on
  ⟨{ st with
      trig_on := new_on
      last_valid_ts := last_valid
      me_mean := mean
      me_m2 := m2
      me_n := n
      last_me := me_s
      dist_ring := ring },
    emit, m_on, s_on⟩

/-- C8. `_update_trigger` forwards an edge to the Direction Pairer
(`emit = true`) only on a rising edge (previous trigger off, new trigger on)
at which the moving-energy logic `m_on` is itself on; hence a rising edge
produced solely by the still-energy logic (with `m_on` false) never initiates
pairing. -/
theorem C8_edge_requires_moving (cfg : TrigCfg) (st : TrigState)
    (now me_s se_s : ℚ) (md_s : Option ℤ) (sqrtVar : ℚ)
    (h : (update_trigger cfg st now me_s se_s md_s sqrtVar).emit = true) :
    st.trig_on = false ∧
    (update_trigger cfg st now me_s se_s md_s sqrtVar).st.trig_on = true ∧
    (update_trigger cfg st now me_s se_s md_s sqrtVar).m_on = true := by
  simp only [update_trigger, Bool.and_eq_true, Bool.not_eq_true'] at h ⊢
  tauto

/-- A level-mode, moving-source configuration:
`trigger_on = 35`, `hysteresis = 5`, `hold = 0.3 s`, `min_energy = 5`. -/
def trigCfgLvl : TrigCfg :=
  ⟨"level", "moving", 5, 35, 5, 3/10, none, none, none, 25, 6, 5, 2, 15⟩

/-- A fresh trigger state: trigger off, no statistics learned yet. -/
def trigStInit : TrigState := ⟨false, 0, 0, 0, 0, 0, []⟩

/-- Witness for C8: a concrete rising edge (smoothed move energy 50 against
threshold 35 in level mode) emits, and indeed the moving logic is on. -/
theorem C8_witness :
    trigStInit.trig_on = false ∧
    (update_trigger trigCfgLvl trigStInit 100 50 0 none 0).st.trig_on = true ∧
    (update_trigger trigCfgLvl trigStInit 100 50 0 none 0).m_on = true :=
  C8_edge_requires_moving trigCfgLvl trigStInit 100 50 0 none 0
    (by norm_num [update_trigger, moving_logic, still_logic, trigCfgLvl, trigStInit])

/- ================================================================
   §8  Parameter-patch command interface
   (src/rd03e_scope.py, `/state` route, lines 868-877, and
   `/ld2410/<side>/cfg` route, lines 1102-1140)
   ================================================================ -/

/-- A JSON value arriving in a patch body.  String and object values are not
modelled; the claims here are settled on numeric, boolean, list and null
values. -/
inductive PyVal where
  | pyInt : ℤ → PyVal
  | pyFloat : ℚ → PyVal
  | pyBool : Bool → PyVal
  | pyList : List PyVal → PyVal
  | pyNone : PyVal

/-- Python `int(x)` on such a value: ints pass through, floats truncate
toward zero, bools become 0/1, and lists or `None` raise (modelled `none`). -/
def pyToInt : PyVal → Option ℤ
  | .pyInt n => some n
  | .pyFloat q => some (pyTrunc q)
  | .pyBool b => some (if b then 1 else 0)
  | .pyList _ => none
  | .pyNone => none

/-- Python `float(x)` on such a value. -/
def pyToFloat : PyVal → Option ℚ
  | .pyInt n => some (n : ℚ)
  | .pyFloat q => some q
  | .pyBool b => some (if b then 1 else 0)
  | .pyList _ => none
  | .pyNone => none

/-- `[int(x) for x in xs]`: all elements cast, or an exception (`none`) as
soon as any element fails. -/
def pyIntList : List PyVal → Option (List ℤ)
  | [] => some []
  | x :: rest =>
    match pyToInt x, pyIntList rest with
    | some n, some ns => some (n :: ns)
    | _, _ => none

/-- The `upd(k, int)` helper of the `/ld2410/<side>/cfg` route: when the key
is present, try the cast and silently keep the old value on failure
(`except Exception: pass`). -/
def updIntField (cur : ℤ) (v : Option PyVal) : ℤ :=
  match v with
  | some x => (pyToInt x).getD cur
  | none => cur

/-- The `upd(k, float)` helper, same skip-on-failure semantics. -/
def updFloatField (cur : ℚ) (v : Option PyVal) : ℚ :=
  match v with
  | some x => (pyToFloat x).getD cur
  | none => cur

/-- The per-side LD2410 configuration record `STATE["ld2410_cfg"][side]`. -/
structure Ld2410Cfg where
  rg_resolution_m : ℚ
  moving_max_rg : ℤ
  still_max_rg : ℤ
  report_delay_ms : ℤ
  stat_time_s : ℤ
  moving_thresholds : List ℤ
  still_thresholds : List ℤ
deriving DecidableEq, Repr

/-- A patch body for the `/ld2410/<side>/cfg` POST route: each known field is
either absent or carries an incoming JSON value. -/
structure CfgPatch where
  rg_resolution_m : Option PyVal := none
  report_delay_ms : Option PyVal := none
  stat_time_s : Option PyVal := none
  moving_max_rg : Option PyVal := none
  still_max_rg : Option PyVal := none
  moving_thresholds : Option PyVal := none
  still_thresholds : Option PyVal := none

/-- The `still_thresholds` tail of the route: applied only when the incoming
value is a list; an uncastable element raises out of the handler (`false`
flag), leaving the config as mutated so far. -/
def ld2410_cfg_still (cfg : Ld2410Cfg) (body : CfgPatch) : Ld2410Cfg × Bool :=
  match body.still_thresholds with
  | some (.pyList xs) =>
    (match pyIntList xs with
     | some ns => ({ cfg with still_thresholds := ns.take 9 }, true)
     | none => (cfg, false))
  | _ => (cfg, true)

/-- The POST body of the `/ld2410/<side>/cfg` route: scalar fields are cast
individually with failures skipped, threshold lists are truncated to 9
entries; the boolean reports whether the handler ran to completion (no
exception escaped). -/
def ld2410_cfg_post (cfg : Ld2410Cfg) (body : CfgPatch) : Ld2410Cfg × Bool :=
  let cfg1 := { cfg with rg_resolution_m := updFloatField cfg.rg_resolution_m body.rg_resolution_m }
  let cfg2 := { cfg1 with report_delay_ms := updIntField cfg1.report_delay_ms body.report_delay_ms }
  let cfg3 := { cfg2 with stat_time_s := updIntField cfg2.stat_time_s body.stat_time_s }
  let cfg4 := { cfg3 with moving_max_rg := updIntField cfg3.moving_max_rg body.moving_max_rg }
  let cfg5 := { cfg4 with still_max_rg := updIntField cfg4.still_max_rg body.still_max_rg }
  match body.moving_thresholds with
  | some (.pyList xs) =>
    (match pyIntList xs with
     | some ns => ld2410_cfg_still { cfg5 with moving_thresholds := ns.take 9 } body
     | none => (cfg5, false))
  | _ => ld2410_cfg_still cfg5 body

/-- The publishable `STATE` keys (`PUB_KEYS`): every key except the live
readout values excluded in the source. -/
def PUB_KEYS : List String :=
  ["macros", "ld2410_cfg", "ld_alpha", "min_energy", "paused",
   "emaA", "emaB", "emaDA", "emaDB", "deadA", "deadB", "spike_factor",
   "gainA", "gainB", "sensor_timeoutA", "sensor_timeoutB", "delta_scale",
   "pair", "minsep", "refract", "trigA", "trigB", "hysA", "hysB",
   "holdA", "holdB", "trig_source", "trigA_still", "trigB_still",
   "hysA_still", "hysB_still", "holdA_still", "holdB_still", "trig_mode",
   "k_sigma", "sigma_floor", "dz_min", "presence_se_min", "wave_cm",
   "wave_window", "uart_side", "uart_read_wait_ms", "uart_total_timeout_ms",
   "uart_template", "uart_params", "sensor_gap_cm", "veh_speed_min_mps",
   "veh_peak_me_min", "veh_min_duration", "count_A2B", "count_B2A",
   "count_total", "count_other", "last_event", "letter_count",
   "last_letter_ts", "beam_broken", "raw_buf_len"]

/-- The POST body of the `/state` route: every body entry whose key is in
`pubKeys` is assigned into `STATE` verbatim; nothing is validated, clamped or
type-checked. -/
def state_post (pubKeys : List String) (st : String → PyVal)
    (body : List (String × PyVal)) : String → PyVal :=
  body.foldl
    (fun s kv =>
      if kv.1 ∈ pubKeys then (fun k => if k = kv.1 then kv.2 else s k) else s)
    st

/-- The side-A defaults of `STATE["ld2410_cfg"]`. -/
def ld2410CfgA : Ld2410Cfg :=
  ⟨3/4, 8, 8, 500, 120,
   [65, 60, 55, 50, 45, 40, 35, 30, 30],
   [0, 0, 40, 40, 35, 30, 30, 25, 25]⟩

/-- C4 (counterexample). No range validation or clamping happens anywhere:
the `/state` route stores a negative pairing window (wrong range and wrong
type for a duration) verbatim, and the ld2410 config route accepts a
`report_delay_ms` of −1 000 000 ms unchanged. -/
theorem C4_counterexample :
    state_post PUB_KEYS (fun _ => PyVal.pyNone)
        [("pair", PyVal.pyFloat (-5))] "pair" = PyVal.pyFloat (-5) ∧
      (ld2410_cfg_post ld2410CfgA
        { report_delay_ms := some (.pyInt (-1000000)) }).1.report_delay_ms =
        -1000000 := by
  constructor
  · rfl
  · rfl

/-- C4 (amended). The ld2410 config route casts each scalar field
individually: a field whose cast raises (wrong type, here a list for
`report_delay_ms`) is skipped and keeps its old value while the other fields
of the same patch are still applied — but the applied value is accepted
verbatim for any integer `n`, with no range validation or clamping, and the
`/state` route stores arbitrary values for known keys without validation. -/
theorem C4_per_field_updates (n : ℤ) (cfg : Ld2410Cfg) :
    (ld2410_cfg_post cfg
        { report_delay_ms := some (.pyList []),
          stat_time_s := some (.pyInt n) }).1.stat_time_s = n ∧
    (ld2410_cfg_post cfg
        { report_delay_ms := some (.pyList []),
          stat_time_s := some (.pyInt n) }).1.report_delay_ms =
      cfg.report_delay_ms ∧
    (ld2410_cfg_post cfg
        { report_delay_ms := some (.pyList []),
          stat_time_s := some (.pyInt n) }).2 = true := by
  exact ⟨rfl, rfl, rfl⟩
